import Mathlib

/-!
# disgo: gateway handlers and webhook decoding

A shallow embedding of

* `core/handlers/gateway_handler_resumed.go`
* `handlers/guild_scheduled_event_user_add_handler.go`
* `handlers/guild_scheduled_event_user_remove_handler.go`
* `handlers/stage_instance_create_handler.go`
* `discord/webhook.go`

Handlers are functions from their arguments to the list of effects they perform on the
client's collaborators (cache, event manager), or to a Go panic.
-/

set_option autoImplicit false

/-! ## Part 1: values shared by the handlers -/

namespace snowflake

/-- The identifier type of the snowflake library (`type Snowflake string`). The handlers only
copy and compare identifiers. -/
abbrev Snowflake := String

end snowflake

open snowflake

namespace bot

/-- A live `bot.Client` interface value. The interface is opaque to the handlers, which only
call `Caches()` and `EventManager()` on it; a client is identified by its reference. -/
structure Client where
  ref : Nat
  deriving DecidableEq, Repr

end bot

namespace core

/-- A live `*core.Bot` (older API generation, used by the resumed handler). -/
structure Bot where
  ref : Nat
  deriving DecidableEq, Repr

end core

namespace discord

/-- The `discord.StageInstance` payload. Its declaration is not among the sources; the handler
reads `ID` and `GuildID` and passes the whole value on, so the remaining fields are kept as an
uninterpreted list of named values. -/
structure StageInstance where
  ID : Snowflake
  GuildID : Snowflake
  others : List (String × String)
  deriving DecidableEq, Repr

/-- The Go zero value `discord.StageInstance{}`. -/
def StageInstance.zero : StageInstance := { ID := "", GuildID := "", others := [] }

end discord

namespace gateway

/-- The `gateway.EventGuildScheduledEventUser` payload, with the three fields the handlers read. -/
structure EventGuildScheduledEventUser where
  GuildScheduledEventID : Snowflake
  UserID : Snowflake
  GuildID : Snowflake
  deriving DecidableEq, Repr

/-- The Go zero value `gateway.EventGuildScheduledEventUser{}`. -/
def EventGuildScheduledEventUser.zero : EventGuildScheduledEventUser :=
  { GuildScheduledEventID := "", UserID := "", GuildID := "" }

end gateway

/-- A Go panic raised by a handler body. -/
inductive Panic where
  | interfaceConversion
  | nilDereference
  deriving DecidableEq, Repr

/-- A Go value of static type `any`, as the handlers receive it: the nil interface, a pointer of
one of the two payload types (`none` is the nil pointer of that type, `some p` points at `p`),
or a value of some other dynamic type. -/
inductive GoAny where
  | nil
  | ptrEventGuildScheduledEventUser (p : Option gateway.EventGuildScheduledEventUser)
  | ptrStageInstance (p : Option discord.StageInstance)
  | other (typeName : String)
  deriving DecidableEq, Repr

namespace GoAny

/-- The type assertion `v.(*gateway.EventGuildScheduledEventUser)`: panics unless the dynamic
type of `v` is exactly that pointer type. -/
def assertPtrEventGuildScheduledEventUser :
    GoAny → Except Panic (Option gateway.EventGuildScheduledEventUser)
  | ptrEventGuildScheduledEventUser p => .ok p
  | _ => .error Panic.interfaceConversion

/-- The type assertion `v.(*discord.StageInstance)`. -/
def assertPtrStageInstance : GoAny → Except Panic (Option discord.StageInstance)
  | ptrStageInstance p => .ok p
  | _ => .error Panic.interfaceConversion

end GoAny

/-- The pointer dereference `*p`: panics on the nil pointer. -/
def deref {α : Type} : Option α → Except Panic α
  | some a => .ok a
  | none => .error Panic.nilDereference

/-! ## Part 2: events -/

namespace events

/-- The generic part of an event of package `events`. -/
structure GenericEvent where
  client : bot.Client
  sequenceNumber : Int
  shardID : Int
  deriving DecidableEq, Repr

/-- Modelled from the spec: `events.NewGenericEvent(client, sequenceNumber, shardID)` is missing
from the sources; by the spec every dispatched event "carries a back-reference to the owning
client context and shard, plus the sequence number it was derived from", so the constructor
stores its three arguments. -/
def NewGenericEvent (client : bot.Client) (sequenceNumber : Int) (shardID : Int) : GenericEvent :=
  { client := client, sequenceNumber := sequenceNumber, shardID := shardID }

/-- The composite literal `events.GenericGuildScheduledEventUser{...}` of the two user handlers. -/
structure GenericGuildScheduledEventUser where
  GenericEvent : GenericEvent
  GuildScheduledEventID : Snowflake
  UserID : Snowflake
  GuildID : Snowflake
  deriving DecidableEq, Repr

/-- The composite literal `events.GenericStageInstance{...}` of the stage instance handler. -/
structure GenericStageInstance where
  GenericEvent : GenericEvent
  StageInstanceID : Snowflake
  StageInstance : discord.StageInstance
  deriving DecidableEq, Repr

/-- The events of package `events` that the handlers construct, one constructor per kind. -/
inductive Event where
  | GuildScheduledEventUserAdd (g : GenericGuildScheduledEventUser)
  | GuildScheduledEventUserRemove (g : GenericGuildScheduledEventUser)
  | StageInstanceCreate (g : GenericStageInstance)
  deriving DecidableEq, Repr

/-- The generic part embedded in an event. -/
def Event.generic : Event → GenericEvent
  | GuildScheduledEventUserAdd g => g.GenericEvent
  | GuildScheduledEventUserRemove g => g.GenericEvent
  | StageInstanceCreate g => g.GenericEvent

end events

namespace core.events

/-- The generic part of an event of package `core/events`: built from a bot and a sequence
number only. -/
structure GenericEvent where
  bot : core.Bot
  sequenceNumber : Int
  deriving DecidableEq, Repr

/-- Modelled from the spec: `events.NewGenericEvent(bot, sequenceNumber)` of package `core/events`
is missing from the sources; the generic event carries the back-reference to the owning context
and the sequence number it is given. It is given no shard. -/
def NewGenericEvent (bot : core.Bot) (sequenceNumber : Int) : GenericEvent :=
  { bot := bot, sequenceNumber := sequenceNumber }

/-- The composite literal `events.ResumedEvent{GenericEvent: ...}`. -/
structure ResumedEvent where
  GenericEvent : GenericEvent
  deriving DecidableEq, Repr

end core.events

/-! ## Part 3: effects and handlers -/

/-- The calls a handler makes on the collaborators of its client, in program order. -/
inductive Effect where
  /-- The call `client.Caches().StageInstances().Put(guildID, id, value)`. -/
  | StageInstancesPut (client : bot.Client) (guildID : Snowflake) (id : Snowflake)
      (value : discord.StageInstance)
  /-- The call `client.EventManager().DispatchEvent(event)`. -/
  | DispatchEvent (client : bot.Client) (event : events.Event)
  /-- The call `bot.EventManager.Dispatch(event)` of the older API. -/
  | Dispatch (bot : core.Bot) (event : core.events.ResumedEvent)
  deriving DecidableEq, Repr

namespace Effect

/-- Whether the effect mutates a cache. -/
def isCachePut : Effect → Bool
  | StageInstancesPut _ _ _ _ => true
  | _ => false

/-- Whether the effect hands an event to the event manager. -/
def isDispatch : Effect → Bool
  | DispatchEvent _ _ => true
  | Dispatch _ _ => true
  | _ => false

end Effect

/-- What a handler call amounts to: the effects it performed, or the panic that ended it. -/
abbrev Outcome := Except Panic (List Effect)

namespace gatewayHandlerResumed

/-- The method `New` of `gatewayHandlerResumed`: `return nil`. -/
def New : GoAny := GoAny.nil

/-- The method `HandleGatewayEvent` of `gatewayHandlerResumed`; the payload argument is `_`. -/
def HandleGatewayEvent (bot : core.Bot) (sequenceNumber : Int) (_v : GoAny) : Outcome :=
  .ok [Effect.Dispatch bot { GenericEvent := core.events.NewGenericEvent bot sequenceNumber }]

end gatewayHandlerResumed

namespace gatewayHandlerGuildScheduledEventUserAdd

/-- The method `New`: `return &gateway.EventGuildScheduledEventUser{}`. -/
def New : GoAny :=
  GoAny.ptrEventGuildScheduledEventUser (some gateway.EventGuildScheduledEventUser.zero)

/-- The method `HandleGatewayEvent` of `gatewayHandlerGuildScheduledEventUserAdd`. -/
def HandleGatewayEvent (client : bot.Client) (sequenceNumber : Int) (shardID : Int)
    (v : GoAny) : Outcome := do
  let payload ← deref (← v.assertPtrEventGuildScheduledEventUser)
  pure [Effect.DispatchEvent client (events.Event.GuildScheduledEventUserAdd
    { GenericEvent := events.NewGenericEvent client sequenceNumber shardID
      GuildScheduledEventID := payload.GuildScheduledEventID
      UserID := payload.UserID
      GuildID := payload.GuildID })]

end gatewayHandlerGuildScheduledEventUserAdd

namespace gatewayHandlerGuildScheduledEventUserRemove

/-- The method `New`: `return &gateway.EventGuildScheduledEventUser{}`. -/
def New : GoAny :=
  GoAny.ptrEventGuildScheduledEventUser (some gateway.EventGuildScheduledEventUser.zero)

/-- The method `HandleGatewayEvent` of `gatewayHandlerGuildScheduledEventUserRemove`. -/
def HandleGatewayEvent (client : bot.Client) (sequenceNumber : Int) (shardID : Int)
    (v : GoAny) : Outcome := do
  let payload ← deref (← v.assertPtrEventGuildScheduledEventUser)
  pure [Effect.DispatchEvent client (events.Event.GuildScheduledEventUserRemove
    { GenericEvent := events.NewGenericEvent client sequenceNumber shardID
      GuildScheduledEventID := payload.GuildScheduledEventID
      UserID := payload.UserID
      GuildID := payload.GuildID })]

end gatewayHandlerGuildScheduledEventUserRemove

namespace gatewayHandlerStageInstanceCreate

/-- The method `New`: `return &discord.StageInstance{}`. -/
def New : GoAny := GoAny.ptrStageInstance (some discord.StageInstance.zero)

/-- The method `HandleGatewayEvent` of `gatewayHandlerStageInstanceCreate`: the cache `Put`
statement precedes the `DispatchEvent` statement. -/
def HandleGatewayEvent (client : bot.Client) (sequenceNumber : Int) (shardID : Int)
    (v : GoAny) : Outcome := do
  let stageInstance ← deref (← v.assertPtrStageInstance)
  pure [Effect.StageInstancesPut client stageInstance.GuildID stageInstance.ID stageInstance,
    Effect.DispatchEvent client (events.Event.StageInstanceCreate
      { GenericEvent := events.NewGenericEvent client sequenceNumber shardID
        StageInstanceID := stageInstance.ID
        StageInstance := stageInstance })]

end gatewayHandlerStageInstanceCreate

/-! ## Part 4: the cache store and what listeners observe -/

/-- Modelled from the spec: the Cache Store is an external collaborator, missing from the sources,
with `Put(scope_key, entity_key, value)`, `Remove(scope_key, entity_key)` and
`Get(scope_key, entity_key) → value|absent`. It is a finite map from the two keys to a value. -/
structure Cache (V : Type) where
  entries : List ((Snowflake × Snowflake) × V)

namespace Cache

variable {V : Type}

/-- The empty cache. -/
def empty : Cache V := { entries := [] }

/-- Modelled from the spec: `Get(scope_key, entity_key) → value|absent`. -/
def Get (c : Cache V) (scope : Snowflake) (key : Snowflake) : Option V :=
  (c.entries.find? (fun e => decide (e.1 = (scope, key)))).map Prod.snd

/-- Modelled from the spec: `Remove(scope_key, entity_key)`. -/
def Remove (c : Cache V) (scope : Snowflake) (key : Snowflake) : Cache V :=
  { entries := c.entries.filter (fun e => !decide (e.1 = (scope, key))) }

/-- Modelled from the spec: `Put(scope_key, entity_key, value)` inserts or replaces. -/
def Put (c : Cache V) (scope : Snowflake) (key : Snowflake) (value : V) : Cache V :=
  { entries := ((scope, key), value) :: (c.Remove scope key).entries }

end Cache

/-- An event of either API generation, as it reaches the listeners. -/
inductive Delivered where
  | event (e : events.Event)
  | resumed (e : core.events.ResumedEvent)

/-- The shard held by the generic part of a delivered event, when that generic part has one. -/
def Delivered.shard : Delivered → Option Int
  | event e => some e.generic.shardID
  | resumed _ => none

/-- The sequence number held by the generic part of a delivered event. -/
def Delivered.sequenceNumber : Delivered → Int
  | event e => e.generic.sequenceNumber
  | resumed e => e.GenericEvent.sequenceNumber

/-- The state of the collaborators of one client: its stage instance cache, and the events handed
to the listeners so far, each with the cache as the listeners saw it at that time. -/
structure World where
  stageInstances : Cache discord.StageInstance
  delivered : List (Delivered × Cache discord.StageInstance)

/-- One effect applied to the collaborators. A dispatch runs the listeners synchronously, so they
observe the cache of that moment. -/
def World.step (w : World) : Effect → World
  | Effect.StageInstancesPut _ guildID id value =>
      { w with stageInstances := w.stageInstances.Put guildID id value }
  | Effect.DispatchEvent _ event =>
      { w with delivered := w.delivered ++ [(Delivered.event event, w.stageInstances)] }
  | Effect.Dispatch _ event =>
      { w with delivered := w.delivered ++ [(Delivered.resumed event, w.stageInstances)] }

/-- The effects of a handler call applied in program order. -/
def World.run (w : World) (trace : List Effect) : World :=
  trace.foldl World.step w

/-- The events a trace hands to the event manager, in order. -/
def dispatched : List Effect → List Delivered
  | [] => []
  | Effect.DispatchEvent _ event :: rest => Delivered.event event :: dispatched rest
  | Effect.Dispatch _ event :: rest => Delivered.resumed event :: dispatched rest
  | Effect.StageInstancesPut _ _ _ _ :: rest => dispatched rest

/-- The events an outcome hands to the event manager (none when the handler panicked). -/
def dispatchedBy : Outcome → List Delivered
  | .ok trace => dispatched trace
  | .error _ => []

/-! ## Part 5: JSON values and the standard decoding rules -/

namespace json

/-- A parsed JSON text. Object members keep their order and their duplicates, as the decoder
meets them; `int` is a number written as an integer literal, `number` any other number literal. -/
inductive Value where
  | null
  | bool (b : Bool)
  | int (n : Int)
  | number (literal : String)
  | str (s : String)
  | arr (items : List Value)
  | obj (members : List (String × Value))

/-- The bytes handed to a decoder: `none` when they are not a well-formed JSON text. -/
abbrev Data := Option Value

/-- The errors of decoding and encoding. -/
inductive Error where
  | malformed
  | typeMismatch
  | unknownWebhookType (t : Int)
  | custom (msg : String)

/-- Modelled from the spec: `json.Marshal` and `json.Unmarshal` of the repository's `json` package
are missing from the sources (the package forwards to Go's `encoding/json`). The spec only says
that decoding "fails with a DecodeError if the raw payload's shape does not satisfy the expected
schema"; the per-type rules below follow the documented behaviour of `encoding/json`.
`zero` is the Go zero value, `marshal` the encoding of a value, and `unmarshal j cur` the value
of a variable holding `cur` after JSON value `j` was decoded into it. -/
class Codec (α : Type) where
  zero : α
  marshal : α → Except Error Value
  unmarshal : Value → α → Except Error α

/-- Case folding of one key character: ASCII upper case to lower case, and the two non-ASCII
characters that fold to an ASCII letter (Kelvin sign to `k`, long s to `s`). -/
def foldRune (c : Char) : Char :=
  if 65 ≤ c.toNat ∧ c.toNat ≤ 90 then Char.ofNat (c.toNat + 32)
  else if c.toNat = 0x212A then Char.ofNat 107
  else if c.toNat = 0x17F then Char.ofNat 115
  else c

/-- Whether an object key is bound to the struct field with the given JSON name: "preferring an
exact match but also accepting a case-insensitive match". No struct below has two fields whose
names agree up to case, so a key is bound to the field it matches up to case. -/
def keyMatches (name : String) (key : String) : Bool :=
  name.data.map foldRune == key.data.map foldRune

/-- Whether a Go field name is exported (starts with an upper case letter); only exported fields
take part in encoding and decoding. -/
def exported (goName : String) : Bool :=
  match goName.data with
  | c :: _ => decide (65 ≤ c.toNat ∧ c.toNat ≤ 90)
  | [] => false

/-- The JSON name of a field: its `json:"..."` tag when it has one, else its Go name. -/
def fieldKey (goName : String) (tag : Option String) : String :=
  tag.getD goName

/-- One struct field during decoding of an object: the members are visited in order and each
member bound to this field is decoded into it, so a later member overrides an earlier one.
An unexported field is never touched. -/
def decodeField {α : Type} [Codec α] (goName : String) (tag : Option String)
    (members : List (String × Value)) (cur : α) : Except Error α :=
  if exported goName then
    members.foldlM (fun acc m =>
      if keyMatches (fieldKey goName tag) m.1 then Codec.unmarshal m.2 acc else pure acc) cur
  else pure cur

/-- Decoding into a struct variable: `null` has no effect, an object is decoded field by field,
every other value is a type mismatch. -/
def decodeStruct {α : Type} (j : Value) (cur : α)
    (fields : List (String × Value) → Except Error α) : Except Error α :=
  match j with
  | Value.null => pure cur
  | Value.obj members => fields members
  | _ => Except.error Error.typeMismatch

/-- One struct field during encoding: Go name, tag and encoded value. -/
structure Field where
  goName : String
  tag : Option String
  value : Except Error Value

/-- Encoding of a struct: an object with one member per exported field, in declaration order;
the fields of an embedded struct are listed in place. -/
def marshalStruct (fields : List Field) : Except Error Value := do
  let members ← (fields.filter (fun f => exported f.goName)).mapM
    (fun f => do
      let v ← f.value
      pure (fieldKey f.goName f.tag, v))
  pure (Value.obj members)

/-- The call `json.Unmarshal(data, &v)`: a syntax error on bytes that are not JSON. -/
def Unmarshal {α : Type} [Codec α] (data : Data) (v : α) : Except Error α :=
  match data with
  | none => Except.error Error.malformed
  | some j => Codec.unmarshal j v

/-- The call `json.Unmarshal(data, &v)` when the pointer type of `v` has its own `UnmarshalJSON`
method: the bytes are checked first, then the method runs on the variable. The result is the
variable afterwards and the error. -/
def UnmarshalWith {α : Type} (method : α → Data → α × Option Error) (data : Data) (v : α) :
    α × Option Error :=
  match data with
  | none => (v, some Error.malformed)
  | some j => method v (some j)

/-- Go `string`: a JSON string is stored, `null` has no effect. -/
instance : Codec String where
  zero := ""
  marshal s := pure (Value.str s)
  unmarshal j cur :=
    match j with
    | Value.null => pure cur
    | Value.str s => pure s
    | _ => Except.error Error.typeMismatch

/-- Go `int` (64 bits): an integer literal in range is stored, `null` has no effect. -/
instance : Codec Int where
  zero := 0
  marshal n := pure (Value.int n)
  unmarshal j cur :=
    match j with
    | Value.null => pure cur
    | Value.int n =>
        if -(2 : Int) ^ 63 ≤ n ∧ n < (2 : Int) ^ 63 then pure n else Except.error Error.typeMismatch
    | _ => Except.error Error.typeMismatch

/-- A Go pointer `*T`: `null` sets it to nil, any other value is decoded into the pointee
(allocated at the zero value when the pointer was nil). -/
instance {α : Type} [Codec α] : Codec (Option α) where
  zero := none
  marshal p :=
    match p with
    | none => pure Value.null
    | some a => Codec.marshal a
  unmarshal j cur :=
    match j with
    | Value.null => pure none
    | _ => do
      let a ← Codec.unmarshal j (cur.getD Codec.zero)
      pure (some a)

end json

/-! ## Part 6: `discord/webhook.go` -/

namespace discord

open json

/-- The type `WebhookType`, a Go `int`. -/
abbrev WebhookType := Int

/-- The constant `WebhookTypeIncoming WebhookType = iota + 1`. -/
def WebhookTypeIncoming : WebhookType := 0 + 1

/-- The constant `WebhookTypeChannelFollower`, the second of the `iota + 1` block. -/
def WebhookTypeChannelFollower : WebhookType := 1 + 1

/-- The constant `WebhookTypeApplication`, the third of the `iota + 1` block. -/
def WebhookTypeApplication : WebhookType := 2 + 1

/-- The struct `WebhookSourceGuild`; `IconT` stands for `json.Nullable[Icon]`, whose declaration
is not among the sources. -/
structure WebhookSourceGuild (IconT : Type) where
  ID : Snowflake
  Name : String
  Icon : Option IconT

/-- The struct `WebhookSourceChannel`. -/
structure WebhookSourceChannel where
  ID : Snowflake
  Name : String

/-- The struct `IncomingWebhook`; `UserT` stands for `discord.User`, whose declaration is not
among the sources. -/
structure IncomingWebhook (UserT : Type) where
  id : Snowflake
  name : String
  avatar : Option String
  ChannelID : Snowflake
  GuildID : Snowflake
  Token : String
  ApplicationID : Option Snowflake
  User : UserT

/-- The struct `ChannelFollowerWebhook`. -/
structure ChannelFollowerWebhook (UserT : Type) (IconT : Type) where
  id : Snowflake
  name : String
  avatar : Option String
  ChannelID : Snowflake
  GuildID : Snowflake
  SourceGuild : WebhookSourceGuild IconT
  SourceChannel : WebhookSourceChannel
  User : UserT

/-- The struct `ApplicationWebhook`; its field `ApplicationID` carries no `json` tag. -/
structure ApplicationWebhook where
  id : Snowflake
  name : String
  avatar : Option String
  ApplicationID : Snowflake
  deriving DecidableEq, Repr

/-- Default struct coding of `WebhookSourceGuild` (tags `id`, `name`, `icon`). -/
instance {IconT : Type} [Codec IconT] : Codec (WebhookSourceGuild IconT) where
  zero := { ID := Codec.zero, Name := Codec.zero, Icon := Codec.zero }
  marshal g := marshalStruct [
    { goName := "ID", tag := some "id", value := Codec.marshal g.ID },
    { goName := "Name", tag := some "name", value := Codec.marshal g.Name },
    { goName := "Icon", tag := some "icon", value := Codec.marshal g.Icon }]
  unmarshal j cur := decodeStruct j cur (fun members => do
    let ID ← decodeField "ID" (some "id") members cur.ID
    let Name ← decodeField "Name" (some "name") members cur.Name
    let Icon ← decodeField "Icon" (some "icon") members cur.Icon
    pure { ID := ID, Name := Name, Icon := Icon })

/-- Default struct coding of `WebhookSourceChannel` (tags `id`, `name`). -/
instance : Codec WebhookSourceChannel where
  zero := { ID := Codec.zero, Name := Codec.zero }
  marshal c := marshalStruct [
    { goName := "ID", tag := some "id", value := Codec.marshal c.ID },
    { goName := "Name", tag := some "name", value := Codec.marshal c.Name }]
  unmarshal j cur := decodeStruct j cur (fun members => do
    let ID ← decodeField "ID" (some "id") members cur.ID
    let Name ← decodeField "Name" (some "name") members cur.Name
    pure { ID := ID, Name := Name })

section Variants

variable {UserT : Type} {IconT : Type} [Codec UserT] [Codec IconT]

/-- The zero value `var v IncomingWebhook`. -/
def IncomingWebhook.zero : IncomingWebhook UserT :=
  { id := Codec.zero, name := Codec.zero, avatar := Codec.zero, ChannelID := Codec.zero,
    GuildID := Codec.zero, Token := Codec.zero, ApplicationID := Codec.zero, User := Codec.zero }

/-- The zero value `var v ChannelFollowerWebhook`. -/
def ChannelFollowerWebhook.zero : ChannelFollowerWebhook UserT IconT :=
  { id := Codec.zero, name := Codec.zero, avatar := Codec.zero, ChannelID := Codec.zero,
    GuildID := Codec.zero, SourceGuild := Codec.zero, SourceChannel := Codec.zero,
    User := Codec.zero }

/-- The zero value `var v ApplicationWebhook`. -/
def ApplicationWebhook.zero : ApplicationWebhook :=
  { id := Codec.zero, name := Codec.zero, avatar := Codec.zero, ApplicationID := Codec.zero }

/-- The method `(w *IncomingWebhook) UnmarshalJSON`: the bytes are decoded into a local struct
with the exported fields `ID`, `Name`, `Avatar` and the embedded `incomingWebhook` (whose own
`id`, `name`, `avatar` are unexported); on an error `*w` is not written. -/
def IncomingWebhook.UnmarshalJSON (w : IncomingWebhook UserT) (data : Data) :
    IncomingWebhook UserT × Option Error :=
  let decoded : Except Error (Snowflake × String × Option String × IncomingWebhook UserT) :=
    match data with
    | none => Except.error Error.malformed
    | some j => decodeStruct j (Codec.zero, Codec.zero, Codec.zero, IncomingWebhook.zero)
        (fun members => do
          let ID ← decodeField "ID" (some "id") members (Codec.zero : Snowflake)
          let Name ← decodeField "Name" (some "name") members (Codec.zero : String)
          let Avatar ← decodeField "Avatar" (some "avatar") members (Codec.zero : Option String)
          let id ← decodeField "id" none members (Codec.zero : Snowflake)
          let name ← decodeField "name" none members (Codec.zero : String)
          let avatar ← decodeField "avatar" none members (Codec.zero : Option String)
          let ChannelID ← decodeField "ChannelID" (some "channel_id") members
            (Codec.zero : Snowflake)
          let GuildID ← decodeField "GuildID" (some "guild_id") members (Codec.zero : Snowflake)
          let Token ← decodeField "Token" (some "token") members (Codec.zero : String)
          let ApplicationID ← decodeField "ApplicationID" (some "application_id") members
            (Codec.zero : Option Snowflake)
          let User ← decodeField "User" (some "user") members (Codec.zero : UserT)
          pure (ID, Name, Avatar,
            { id := id, name := name, avatar := avatar, ChannelID := ChannelID,
              GuildID := GuildID, Token := Token, ApplicationID := ApplicationID, User := User }))
  match decoded with
  | Except.error err => (w, some err)
  | Except.ok (ID, Name, Avatar, incomingWebhook) =>
      ({ incomingWebhook with id := ID, name := Name, avatar := Avatar }, none)

/-- The method `(w IncomingWebhook) Type`. -/
def IncomingWebhook.Type_ (_w : IncomingWebhook UserT) : WebhookType := WebhookTypeIncoming

/-- The method `(w IncomingWebhook) MarshalJSON`: the struct `{Type; incomingWebhook}` is encoded,
the fields of the embedded struct listed in place. -/
def IncomingWebhook.MarshalJSON (w : IncomingWebhook UserT) : Except Error Value :=
  marshalStruct [
    { goName := "Type", tag := some "type", value := Codec.marshal w.Type_ },
    { goName := "id", tag := none, value := Codec.marshal w.id },
    { goName := "name", tag := none, value := Codec.marshal w.name },
    { goName := "avatar", tag := none, value := Codec.marshal w.avatar },
    { goName := "ChannelID", tag := some "channel_id", value := Codec.marshal w.ChannelID },
    { goName := "GuildID", tag := some "guild_id", value := Codec.marshal w.GuildID },
    { goName := "Token", tag := some "token", value := Codec.marshal w.Token },
    { goName := "ApplicationID", tag := some "application_id",
      value := Codec.marshal w.ApplicationID },
    { goName := "User", tag := some "user", value := Codec.marshal w.User }]

/-- The method `(w *ChannelFollowerWebhook) UnmarshalJSON`. -/
def ChannelFollowerWebhook.UnmarshalJSON (w : ChannelFollowerWebhook UserT IconT) (data : Data) :
    ChannelFollowerWebhook UserT IconT × Option Error :=
  let decoded :
      Except Error (Snowflake × String × Option String × ChannelFollowerWebhook UserT IconT) :=
    match data with
    | none => Except.error Error.malformed
    | some j => decodeStruct j (Codec.zero, Codec.zero, Codec.zero, ChannelFollowerWebhook.zero)
        (fun members => do
          let ID ← decodeField "ID" (some "id") members (Codec.zero : Snowflake)
          let Name ← decodeField "Name" (some "name") members (Codec.zero : String)
          let Avatar ← decodeField "Avatar" (some "avatar") members (Codec.zero : Option String)
          let id ← decodeField "id" none members (Codec.zero : Snowflake)
          let name ← decodeField "name" none members (Codec.zero : String)
          let avatar ← decodeField "avatar" none members (Codec.zero : Option String)
          let ChannelID ← decodeField "ChannelID" (some "channel_id") members
            (Codec.zero : Snowflake)
          let GuildID ← decodeField "GuildID" (some "guild_id") members (Codec.zero : Snowflake)
          let SourceGuild ← decodeField "SourceGuild" (some "source_guild") members
            (Codec.zero : WebhookSourceGuild IconT)
          let SourceChannel ← decodeField "SourceChannel" (some "source_channel") members
            (Codec.zero : WebhookSourceChannel)
          let User ← decodeField "User" (some "user") members (Codec.zero : UserT)
          pure (ID, Name, Avatar,
            { id := id, name := name, avatar := avatar, ChannelID := ChannelID,
              GuildID := GuildID, SourceGuild := SourceGuild, SourceChannel := SourceChannel,
              User := User }))
  match decoded with
  | Except.error err => (w, some err)
  | Except.ok (ID, Name, Avatar, channelFollowerWebhook) =>
      ({ channelFollowerWebhook with id := ID, name := Name, avatar := Avatar }, none)

/-- The method `(w ChannelFollowerWebhook) Type`. -/
def ChannelFollowerWebhook.Type_ (_w : ChannelFollowerWebhook UserT IconT) : WebhookType :=
  WebhookTypeChannelFollower

/-- The method `(w ChannelFollowerWebhook) MarshalJSON`. -/
def ChannelFollowerWebhook.MarshalJSON (w : ChannelFollowerWebhook UserT IconT) :
    Except Error Value :=
  marshalStruct [
    { goName := "Type", tag := some "type", value := Codec.marshal w.Type_ },
    { goName := "id", tag := none, value := Codec.marshal w.id },
    { goName := "name", tag := none, value := Codec.marshal w.name },
    { goName := "avatar", tag := none, value := Codec.marshal w.avatar },
    { goName := "ChannelID", tag := some "channel_id", value := Codec.marshal w.ChannelID },
    { goName := "GuildID", tag := some "guild_id", value := Codec.marshal w.GuildID },
    { goName := "SourceGuild", tag := some "source_guild", value := Codec.marshal w.SourceGuild },
    { goName := "SourceChannel", tag := some "source_channel",
      value := Codec.marshal w.SourceChannel },
    { goName := "User", tag := some "user", value := Codec.marshal w.User }]

/-- The method `(w *ApplicationWebhook) UnmarshalJSON`: the four fields of the local struct are
copied into `*w` on success. -/
def ApplicationWebhook.UnmarshalJSON (w : ApplicationWebhook) (data : Data) :
    ApplicationWebhook × Option Error :=
  let decoded : Except Error (Snowflake × String × Option String × Snowflake) :=
    match data with
    | none => Except.error Error.malformed
    | some j => decodeStruct j (Codec.zero, Codec.zero, Codec.zero, Codec.zero)
        (fun members => do
          let ID ← decodeField "ID" (some "id") members (Codec.zero : Snowflake)
          let Name ← decodeField "Name" (some "name") members (Codec.zero : String)
          let Avatar ← decodeField "Avatar" (some "avatar") members (Codec.zero : Option String)
          let ApplicationID ← decodeField "ApplicationID" (some "application_id") members
            (Codec.zero : Snowflake)
          pure (ID, Name, Avatar, ApplicationID))
  match decoded with
  | Except.error err => (w, some err)
  | Except.ok (ID, Name, Avatar, ApplicationID) =>
      ({ w with id := ID, name := Name, avatar := Avatar, ApplicationID := ApplicationID }, none)

/-- The method `(w ApplicationWebhook) Type`. -/
def ApplicationWebhook.Type_ (_w : ApplicationWebhook) : WebhookType := WebhookTypeApplication

/-- The method `(w ApplicationWebhook) MarshalJSON`: the struct `{Type; applicationWebhook}` is
encoded; `ApplicationID` has no tag, so its JSON name is its Go name. -/
def ApplicationWebhook.MarshalJSON (w : ApplicationWebhook) : Except Error Value :=
  marshalStruct [
    { goName := "Type", tag := some "type", value := Codec.marshal w.Type_ },
    { goName := "id", tag := none, value := Codec.marshal w.id },
    { goName := "name", tag := none, value := Codec.marshal w.name },
    { goName := "avatar", tag := none, value := Codec.marshal w.avatar },
    { goName := "ApplicationID", tag := none, value := Codec.marshal w.ApplicationID }]

end Variants

/-- A non-nil value of the interface `Webhook`: one of the three struct types that implement it. -/
inductive Webhook (UserT : Type) (IconT : Type) where
  | Incoming (v : IncomingWebhook UserT)
  | ChannelFollower (v : ChannelFollowerWebhook UserT IconT)
  | Application (v : ApplicationWebhook)

namespace Webhook

variable {UserT : Type} {IconT : Type}

/-- The interface method `Type()`. -/
def Type_ : Webhook UserT IconT → WebhookType
  | Incoming v => v.Type_
  | ChannelFollower v => v.Type_
  | Application v => v.Type_

/-- The interface method `ID()`. -/
def ID : Webhook UserT IconT → Snowflake
  | Incoming v => v.id
  | ChannelFollower v => v.id
  | Application v => v.id

/-- The interface method `Name()`. -/
def Name : Webhook UserT IconT → String
  | Incoming v => v.name
  | ChannelFollower v => v.name
  | Application v => v.name

/-- The interface method `Avatar()`. -/
def Avatar : Webhook UserT IconT → Option String
  | Incoming v => v.avatar
  | ChannelFollower v => v.avatar
  | Application v => v.avatar

/-- The interface method `MarshalJSON()`. -/
def MarshalJSON [Codec UserT] [Codec IconT] : Webhook UserT IconT → Except Error Value
  | Incoming v => v.MarshalJSON
  | ChannelFollower v => v.MarshalJSON
  | Application v => v.MarshalJSON

end Webhook

/-- The struct `UnmarshalWebhook`: an embedded `Webhook` interface value, `none` when nil. -/
structure UnmarshalWebhook (UserT : Type) (IconT : Type) where
  Webhook : Option (discord.Webhook UserT IconT)

/-- The local `var wType struct { Type WebhookType }` after `json.Unmarshal(data, &wType)`:
default struct decoding with the single field `Type`, tagged `type`. -/
def decodeWType (data : Data) : Except Error WebhookType :=
  match data with
  | none => Except.error Error.malformed
  | some j => decodeStruct j (Codec.zero : WebhookType)
      (fun members => decodeField "Type" (some "type") members (Codec.zero : WebhookType))

/-- The method `(w *UnmarshalWebhook) UnmarshalJSON`. The result is the receiver after the call
and the returned error. The `switch` leaves `webhook` and `err`; `w.Webhook` is assigned only
after the `err != nil` check. -/
def UnmarshalWebhook.UnmarshalJSON {UserT : Type} {IconT : Type} [Codec UserT] [Codec IconT]
    (w : UnmarshalWebhook UserT IconT) (data : Data) :
    UnmarshalWebhook UserT IconT × Option Error :=
  match decodeWType data with
  | Except.error err => (w, some err)
  | Except.ok wType =>
      let switched : Option (discord.Webhook UserT IconT) × Option Error :=
        if wType = WebhookTypeIncoming then
          let r := UnmarshalWith IncomingWebhook.UnmarshalJSON data IncomingWebhook.zero
          (some (Webhook.Incoming r.1), r.2)
        else if wType = WebhookTypeChannelFollower then
          let r := UnmarshalWith ChannelFollowerWebhook.UnmarshalJSON data
            ChannelFollowerWebhook.zero
          (some (Webhook.ChannelFollower r.1), r.2)
        else if wType = WebhookTypeApplication then
          let r := UnmarshalWith ApplicationWebhook.UnmarshalJSON data ApplicationWebhook.zero
          (some (Webhook.Application r.1), r.2)
        else (none, some (Error.unknownWebhookType wType))
      match switched.2 with
      | some err => (w, some err)
      | none => ({ w with Webhook := switched.1 }, none)

end discord

/-! ## Part 7: specification vocabulary -/

/-- The dynamic Go type of the value the decoder stores in an interface variable that holds no
live pointer: `bool`, `float64`, `string`, a slice or a map. -/
def json.Value.goType : json.Value → String
  | json.Value.null => "nil"
  | json.Value.bool _ => "bool"
  | json.Value.int _ => "float64"
  | json.Value.number _ => "float64"
  | json.Value.str _ => "string"
  | json.Value.arr _ => "[]interface {}"
  | json.Value.obj _ => "map[string]interface {}"

/-- Modelled from the spec: the decode step that runs between `New` and `HandleGatewayEvent` is
missing from the sources. By the spec `New()` "returns an empty payload value or nil", the body
is decoded into that value unless it is nil, and `Decode` fails "if the raw payload's shape does
not satisfy the expected schema". The step is `Decode(&v)` on the variable `v` of type `any`
that holds what `New` returned, with the rules of Go's `encoding/json` for an interface
variable: bytes that are not JSON are an error and leave `v` alone; a `null` body sets `v` to
the nil interface; any other body is decoded into the pointee when `v` holds a non-nil pointer
(the pointer stays, whether or not the pointee decoder reports an error), and is stored as a
plain value of its own dynamic type otherwise. The payload structs are declared outside the
sources, so their decoders are parameters: each gives the pointee after the call and the
error. -/
def GoAny.Decode
    (decodeUser : json.Value → gateway.EventGuildScheduledEventUser →
      gateway.EventGuildScheduledEventUser × Option json.Error)
    (decodeStage : json.Value → discord.StageInstance →
      discord.StageInstance × Option json.Error)
    (v : GoAny) (body : json.Data) : GoAny × Option json.Error :=
  match body with
  | none => (v, some json.Error.malformed)
  | some json.Value.null => (GoAny.nil, none)
  | some j =>
    match v with
    | GoAny.ptrEventGuildScheduledEventUser (some p) =>
        (GoAny.ptrEventGuildScheduledEventUser (some (decodeUser j p).1), (decodeUser j p).2)
    | GoAny.ptrStageInstance (some s) =>
        (GoAny.ptrStageInstance (some (decodeStage j s).1), (decodeStage j s).2)
    | _ => (GoAny.other j.goType, none)

/-- Whether a JSON value is `null`. -/
def json.Value.isNull : json.Value → Bool
  | json.Value.null => true
  | _ => false

/-- The non-null values of the members of an object whose key equals `type` up to letter case,
in the order of the members. -/
def typeMembers (members : List (String × json.Value)) : List json.Value :=
  (members.filter (fun m => json.keyMatches "type" m.1 && !m.2.isNull)).map Prod.snd

/-- The value of the first member of an object whose key is exactly `type`. -/
def exactTypeMember (members : List (String × json.Value)) : Option json.Value :=
  (members.find? (fun m => m.1 == "type")).map Prod.snd

/-! ## Part 8: the gateway handlers -/

section Handlers

open events

theorem cache_get_put {V : Type} (c : Cache V) (scope key : Snowflake) (value : V) :
    (c.Put scope key value).Get scope key = some value := by
  simp [Cache.Put, Cache.Get]

/-- C2: on a decoded stage instance payload `s` the handler puts `s` in the cache under scope key
`s.GuildID` and entity key `s.ID` and then dispatches a StageInstanceCreate event whose
StageInstanceID is `s.ID`, whose StageInstance is `s` (the value a later cache Get under these
keys returns) and whose generic part is built from the client, sequence number and shard given. -/
theorem stageInstanceCreate_stores_and_dispatches (client : bot.Client) (sequenceNumber : Int)
    (shardID : Int) (s : discord.StageInstance) :
    ∃ g : GenericStageInstance,
      gatewayHandlerStageInstanceCreate.HandleGatewayEvent client sequenceNumber shardID
          (GoAny.ptrStageInstance (some s))
        = Except.ok [Effect.StageInstancesPut client s.GuildID s.ID s,
            Effect.DispatchEvent client (Event.StageInstanceCreate g)]
      ∧ g.StageInstanceID = s.ID
      ∧ g.StageInstance = s
      ∧ g.GenericEvent = NewGenericEvent client sequenceNumber shardID
      ∧ ∀ w : World,
          (w.run [Effect.StageInstancesPut client s.GuildID s.ID s,
              Effect.DispatchEvent client (Event.StageInstanceCreate g)]).stageInstances.Get
            s.GuildID s.ID = some g.StageInstance := by
  refine ⟨_, rfl, rfl, rfl, rfl, fun w => ?_⟩
  exact cache_get_put _ _ _ _

/-- C3 as stated fails: the event the resumed handler dispatches has a generic part without a
shard (it is built from the bot and the sequence number alone). -/
theorem resumed_event_carries_no_shard :
    (dispatchedBy (gatewayHandlerResumed.HandleGatewayEvent { ref := 1 } 7 GoAny.nil)).map
        Delivered.shard = [none]
      ∧ ¬ ∀ d ∈ dispatchedBy (gatewayHandlerResumed.HandleGatewayEvent { ref := 1 } 7 GoAny.nil),
          ∃ shardID, d.shard = some shardID := by
  refine ⟨rfl, fun h => ?_⟩
  obtain ⟨shardID, hs⟩ := h _ (List.mem_singleton.mpr rfl)
  exact Option.noConfusion hs

/-- C3, amended: whatever payload they are given, the user-add, user-remove and
stage-instance-create handlers dispatch nothing (when they panic) or one event whose generic part
holds the client, the sequence number and the shard they were called with, unchanged, and on a
decoded payload they do dispatch; the resumed handler, which is called without a shard, dispatches
one event whose generic part holds its bot and its sequence number, unchanged. -/
theorem dispatched_events_generic_part (client : bot.Client) (b : core.Bot)
    (sequenceNumber : Int) (shardID : Int) (v : GoAny)
    (p : gateway.EventGuildScheduledEventUser) (s : discord.StageInstance) :
    (∀ o ∈ [gatewayHandlerGuildScheduledEventUserAdd.HandleGatewayEvent client sequenceNumber
              shardID v,
            gatewayHandlerGuildScheduledEventUserRemove.HandleGatewayEvent client sequenceNumber
              shardID v,
            gatewayHandlerStageInstanceCreate.HandleGatewayEvent client sequenceNumber shardID v],
        dispatchedBy o = [] ∨ ∃ e : Event, dispatchedBy o = [Delivered.event e]
          ∧ e.generic.client = client ∧ e.generic.shardID = shardID
          ∧ e.generic.sequenceNumber = sequenceNumber)
      ∧ (∀ o ∈ [gatewayHandlerGuildScheduledEventUserAdd.HandleGatewayEvent client sequenceNumber
              shardID (GoAny.ptrEventGuildScheduledEventUser (some p)),
            gatewayHandlerGuildScheduledEventUserRemove.HandleGatewayEvent client sequenceNumber
              shardID (GoAny.ptrEventGuildScheduledEventUser (some p)),
            gatewayHandlerStageInstanceCreate.HandleGatewayEvent client sequenceNumber shardID
              (GoAny.ptrStageInstance (some s))],
        ∃ e : Event, dispatchedBy o = [Delivered.event e]
          ∧ e.generic = NewGenericEvent client sequenceNumber shardID)
      ∧ ∃ e : core.events.ResumedEvent,
          dispatchedBy (gatewayHandlerResumed.HandleGatewayEvent b sequenceNumber v)
            = [Delivered.resumed e]
          ∧ e.GenericEvent.bot = b ∧ e.GenericEvent.sequenceNumber = sequenceNumber := by
  refine ⟨?_, ?_, ⟨_, rfl, rfl, rfl⟩⟩
  · intro o ho
    simp only [List.mem_cons, List.mem_singleton, List.not_mem_nil, or_false] at ho
    rcases ho with rfl | rfl | rfl
    · rcases v with _ | (_ | p') | _ | _
      · exact Or.inl rfl
      · exact Or.inl rfl
      · exact Or.inr ⟨_, rfl, rfl, rfl, rfl⟩
      · exact Or.inl rfl
      · exact Or.inl rfl
    · rcases v with _ | (_ | p') | _ | _
      · exact Or.inl rfl
      · exact Or.inl rfl
      · exact Or.inr ⟨_, rfl, rfl, rfl, rfl⟩
      · exact Or.inl rfl
      · exact Or.inl rfl
    · rcases v with _ | _ | (_ | s') | _
      · exact Or.inl rfl
      · exact Or.inl rfl
      · exact Or.inl rfl
      · exact Or.inr ⟨_, rfl, rfl, rfl, rfl⟩
      · exact Or.inl rfl
  · intro o ho
    simp only [List.mem_cons, List.mem_singleton, List.not_mem_nil, or_false] at ho
    rcases ho with rfl | rfl | rfl
    · exact ⟨_, rfl, rfl⟩
    · exact ⟨_, rfl, rfl⟩
    · exact ⟨_, rfl, rfl⟩

/-- C4: the resumed handler has no body: `New` returns nil, and for every bot, sequence number
and any two payload arguments the call has the same outcome, a trace of exactly one Dispatch of
a ResumedEvent whose generic part is built from that bot and sequence number, with no cache
mutation. -/
theorem resumed_ignores_payload (b : core.Bot) (sequenceNumber : Int) (v1 : GoAny) (v2 : GoAny) :
    gatewayHandlerResumed.New = GoAny.nil
      ∧ gatewayHandlerResumed.HandleGatewayEvent b sequenceNumber v1
          = gatewayHandlerResumed.HandleGatewayEvent b sequenceNumber v2
      ∧ gatewayHandlerResumed.HandleGatewayEvent b sequenceNumber gatewayHandlerResumed.New
          = gatewayHandlerResumed.HandleGatewayEvent b sequenceNumber v1
      ∧ ∃ trace : List Effect,
          gatewayHandlerResumed.HandleGatewayEvent b sequenceNumber v1 = Except.ok trace
          ∧ trace = [Effect.Dispatch b
              { GenericEvent := core.events.NewGenericEvent b sequenceNumber }]
          ∧ trace.countP Effect.isDispatch = 1
          ∧ trace.countP Effect.isCachePut = 0 :=
  ⟨rfl, rfl, rfl, _, rfl, rfl, rfl, rfl⟩

/-- C5: on a decoded payload `p` the user-add and the user-remove handler each perform exactly one
DispatchEvent and no cache mutation; the event carries the GuildScheduledEventID, UserID and
GuildID of `p` and a generic part built from the client, sequence number and shard passed in; the
two events have the same generic guild-scheduled-event-user content and differ in kind only. -/
theorem guildScheduledEventUser_add_remove (client : bot.Client) (sequenceNumber : Int)
    (shardID : Int) (p : gateway.EventGuildScheduledEventUser) :
    ∃ g : GenericGuildScheduledEventUser,
      gatewayHandlerGuildScheduledEventUserAdd.HandleGatewayEvent client sequenceNumber shardID
          (GoAny.ptrEventGuildScheduledEventUser (some p))
        = Except.ok [Effect.DispatchEvent client (Event.GuildScheduledEventUserAdd g)]
      ∧ gatewayHandlerGuildScheduledEventUserRemove.HandleGatewayEvent client sequenceNumber
          shardID (GoAny.ptrEventGuildScheduledEventUser (some p))
        = Except.ok [Effect.DispatchEvent client (Event.GuildScheduledEventUserRemove g)]
      ∧ g.GuildScheduledEventID = p.GuildScheduledEventID
      ∧ g.UserID = p.UserID
      ∧ g.GuildID = p.GuildID
      ∧ g.GenericEvent = NewGenericEvent client sequenceNumber shardID
      ∧ [Effect.DispatchEvent client (Event.GuildScheduledEventUserAdd g)].countP
          Effect.isCachePut = 0
      ∧ [Effect.DispatchEvent client (Event.GuildScheduledEventUserRemove g)].countP
          Effect.isCachePut = 0
      ∧ [Effect.DispatchEvent client (Event.GuildScheduledEventUserAdd g)].countP
          Effect.isDispatch = 1
      ∧ [Effect.DispatchEvent client (Event.GuildScheduledEventUserRemove g)].countP
          Effect.isDispatch = 1
      ∧ Event.GuildScheduledEventUserAdd g ≠ Event.GuildScheduledEventUserRemove g :=
  ⟨_, rfl, rfl, rfl, rfl, rfl, rfl, rfl, rfl, rfl, rfl, fun h => Event.noConfusion h⟩

/-- The value `New` returned is, after a body other than `null` was decoded into it, still a
non-nil pointer of the type it had. -/
theorem decode_keeps_pointer
    (decodeUser : json.Value → gateway.EventGuildScheduledEventUser →
      gateway.EventGuildScheduledEventUser × Option json.Error)
    (decodeStage : json.Value → discord.StageInstance →
      discord.StageInstance × Option json.Error)
    (body : json.Data) (h : body ≠ some json.Value.null) :
    (∃ p, (GoAny.Decode decodeUser decodeStage
        (GoAny.ptrEventGuildScheduledEventUser (some gateway.EventGuildScheduledEventUser.zero))
        body).1 = GoAny.ptrEventGuildScheduledEventUser (some p))
      ∧ ∃ s, (GoAny.Decode decodeUser decodeStage
          (GoAny.ptrStageInstance (some discord.StageInstance.zero)) body).1
        = GoAny.ptrStageInstance (some s) := by
  cases body with
  | none => exact ⟨⟨_, rfl⟩, ⟨_, rfl⟩⟩
  | some j =>
    cases j with
    | null => exact absurd rfl h
    | bool b => exact ⟨⟨_, rfl⟩, ⟨_, rfl⟩⟩
    | int n => exact ⟨⟨_, rfl⟩, ⟨_, rfl⟩⟩
    | number l => exact ⟨⟨_, rfl⟩, ⟨_, rfl⟩⟩
    | str t => exact ⟨⟨_, rfl⟩, ⟨_, rfl⟩⟩
    | arr l => exact ⟨⟨_, rfl⟩, ⟨_, rfl⟩⟩
    | obj l => exact ⟨⟨_, rfl⟩, ⟨_, rfl⟩⟩

/-- C9 as stated fails: decoding the body `null` into the value `New` returned succeeds and
leaves the nil interface in the variable, and each of the three handlers then panics on its type
assertion. -/
theorem null_body_makes_handlers_panic :
    (GoAny.Decode (fun _ p => (p, none)) (fun _ s => (s, none))
        gatewayHandlerGuildScheduledEventUserAdd.New (some json.Value.null)).2 = none
      ∧ gatewayHandlerGuildScheduledEventUserAdd.HandleGatewayEvent { ref := 1 } 7 0
          (GoAny.Decode (fun _ p => (p, none)) (fun _ s => (s, none))
            gatewayHandlerGuildScheduledEventUserAdd.New (some json.Value.null)).1
        = Except.error Panic.interfaceConversion
      ∧ (GoAny.Decode (fun _ p => (p, none)) (fun _ s => (s, none))
        gatewayHandlerGuildScheduledEventUserRemove.New (some json.Value.null)).2 = none
      ∧ gatewayHandlerGuildScheduledEventUserRemove.HandleGatewayEvent { ref := 1 } 7 0
          (GoAny.Decode (fun _ p => (p, none)) (fun _ s => (s, none))
            gatewayHandlerGuildScheduledEventUserRemove.New (some json.Value.null)).1
        = Except.error Panic.interfaceConversion
      ∧ (GoAny.Decode (fun _ p => (p, none)) (fun _ s => (s, none))
        gatewayHandlerStageInstanceCreate.New (some json.Value.null)).2 = none
      ∧ gatewayHandlerStageInstanceCreate.HandleGatewayEvent { ref := 1 } 7 0
          (GoAny.Decode (fun _ p => (p, none)) (fun _ s => (s, none))
            gatewayHandlerStageInstanceCreate.New (some json.Value.null)).1
        = Except.error Panic.interfaceConversion :=
  ⟨rfl, rfl, rfl, rfl, rfl, rfl⟩

/-- C9, amended: for each of the three handlers that decode a body, `New` returns a non-nil
pointer of exactly the type the handler asserts and dereferences; the handler does not panic on
the value `New` returned, neither as returned nor after a body other than JSON `null` was
decoded into it (whatever the payload decoders do, and whether or not they report an error). -/
theorem new_payload_passes_assertion (client : bot.Client) (sequenceNumber : Int) (shardID : Int)
    (decodeUser : json.Value → gateway.EventGuildScheduledEventUser →
      gateway.EventGuildScheduledEventUser × Option json.Error)
    (decodeStage : json.Value → discord.StageInstance →
      discord.StageInstance × Option json.Error)
    (body : json.Data) (h : body ≠ some json.Value.null) :
    (∃ p0, gatewayHandlerGuildScheduledEventUserAdd.New.assertPtrEventGuildScheduledEventUser
        = Except.ok (some p0))
      ∧ (∃ p0, gatewayHandlerGuildScheduledEventUserRemove.New.assertPtrEventGuildScheduledEventUser
        = Except.ok (some p0))
      ∧ (∃ s0, gatewayHandlerStageInstanceCreate.New.assertPtrStageInstance = Except.ok (some s0))
      ∧ (∀ v ∈ [gatewayHandlerGuildScheduledEventUserAdd.New,
            (GoAny.Decode decodeUser decodeStage gatewayHandlerGuildScheduledEventUserAdd.New
              body).1],
          ∃ trace, gatewayHandlerGuildScheduledEventUserAdd.HandleGatewayEvent client
            sequenceNumber shardID v = Except.ok trace)
      ∧ (∀ v ∈ [gatewayHandlerGuildScheduledEventUserRemove.New,
            (GoAny.Decode decodeUser decodeStage gatewayHandlerGuildScheduledEventUserRemove.New
              body).1],
          ∃ trace, gatewayHandlerGuildScheduledEventUserRemove.HandleGatewayEvent client
            sequenceNumber shardID v = Except.ok trace)
      ∧ (∀ v ∈ [gatewayHandlerStageInstanceCreate.New,
            (GoAny.Decode decodeUser decodeStage gatewayHandlerStageInstanceCreate.New body).1],
          ∃ trace, gatewayHandlerStageInstanceCreate.HandleGatewayEvent client
            sequenceNumber shardID v = Except.ok trace) := by
  obtain ⟨⟨p, hp⟩, ⟨s, hs⟩⟩ := decode_keeps_pointer decodeUser decodeStage body h
  refine ⟨⟨_, rfl⟩, ⟨_, rfl⟩, ⟨_, rfl⟩, ?_, ?_, ?_⟩
  · intro v hv
    simp only [List.mem_cons, List.mem_singleton, List.not_mem_nil, or_false] at hv
    rcases hv with rfl | rfl
    · exact ⟨_, rfl⟩
    · rw [gatewayHandlerGuildScheduledEventUserAdd.New, hp]
      exact ⟨_, rfl⟩
  · intro v hv
    simp only [List.mem_cons, List.mem_singleton, List.not_mem_nil, or_false] at hv
    rcases hv with rfl | rfl
    · exact ⟨_, rfl⟩
    · rw [gatewayHandlerGuildScheduledEventUserRemove.New, hp]
      exact ⟨_, rfl⟩
  · intro v hv
    simp only [List.mem_cons, List.mem_singleton, List.not_mem_nil, or_false] at hv
    rcases hv with rfl | rfl
    · exact ⟨_, rfl⟩
    · rw [gatewayHandlerStageInstanceCreate.New, hs]
      exact ⟨_, rfl⟩

/-- C9, amended, at a concrete input: the body `{"id":"5"}` decoded into what `New` returned by
decoders that store the id and report no error. -/
theorem new_payload_passes_assertion_witness :
    (some (json.Value.obj [("id", json.Value.str "5")]) ≠ some json.Value.null)
      ∧ (∃ trace, gatewayHandlerStageInstanceCreate.HandleGatewayEvent { ref := 1 } 7 0
          (GoAny.Decode (fun _ p => ({ p with UserID := "5" }, none))
            (fun _ s => ({ s with ID := "5" }, none))
            gatewayHandlerStageInstanceCreate.New
            (some (json.Value.obj [("id", json.Value.str "5")]))).1 = Except.ok trace) :=
  have hne : some (json.Value.obj [("id", json.Value.str "5")]) ≠ some json.Value.null :=
    fun h => json.Value.noConfusion (Option.some.inj h)
  ⟨hne,
    (new_payload_passes_assertion { ref := 1 } 7 0
      (fun _ p => ({ p with UserID := "5" }, none)) (fun _ s => ({ s with ID := "5" }, none))
      (some (json.Value.obj [("id", json.Value.str "5")])) hne).2.2.2.2.2
      _ (List.mem_cons_of_mem _ (List.mem_singleton.mpr rfl))⟩

end Handlers

/-! ## Part 9: webhook decoding -/

section Webhooks

open json discord

/-- The decoding step of the field `Type` of the local `wType`, for one member of the object. -/
theorem decodeWType_obj (members : List (String × Value)) :
    decodeWType (some (Value.obj members))
      = members.foldlM (fun (acc : WebhookType) m =>
          if keyMatches "type" m.1 then Codec.unmarshal m.2 acc else pure acc) 0 := rfl

/-- Folding the members into the field `Type`: the result is the start value when no member with a
key equal to `type` up to case holds a non-null value, else the integer of the last such member. -/
theorem foldlM_type_last (members : List (String × Value)) (cur : WebhookType) (t : WebhookType)
    (h : members.foldlM (fun (acc : WebhookType) m =>
          if keyMatches "type" m.1 then Codec.unmarshal m.2 acc else pure acc) cur
        = Except.ok t) :
    (typeMembers members = [] ∧ t = cur) ∨ (typeMembers members).getLast? = some (Value.int t) := by
  induction members generalizing cur with
  | nil =>
    left
    refine ⟨rfl, ?_⟩
    simp only [List.foldlM, pure, Except.pure] at h
    exact (Except.ok.inj h).symm
  | cons m rest ih =>
    obtain ⟨key, val⟩ := m
    rw [List.foldlM_cons] at h
    by_cases hk : keyMatches "type" key = true
    · simp only [hk, if_true] at h
      cases val with
      | null =>
        have ht : typeMembers ((key, Value.null) :: rest) = typeMembers rest := by
          simp [typeMembers, hk, Value.isNull]
        rw [ht]
        exact ih cur h
      | int n =>
        have ht : typeMembers ((key, Value.int n) :: rest) = Value.int n :: typeMembers rest := by
          simp [typeMembers, hk, Value.isNull]
        rw [ht]
        by_cases hr : -(2 : Int) ^ 63 ≤ n ∧ n < (2 : Int) ^ 63
        · have hstep : (Codec.unmarshal (Value.int n) cur : Except Error WebhookType)
              = Except.ok n := by
            show (if -(2 : Int) ^ 63 ≤ n ∧ n < (2 : Int) ^ 63 then pure n
              else Except.error Error.typeMismatch) = Except.ok n
            rw [if_pos hr]; rfl
          rw [hstep] at h
          rcases ih n h with ⟨hnil, htn⟩ | hlast
          · right
            rw [hnil, htn]; rfl
          · right
            cases hrest : typeMembers rest with
            | nil => rw [hrest] at hlast; exact absurd hlast (by simp)
            | cons a l => rw [hrest] at hlast; rw [List.getLast?_cons_cons]; exact hlast
        · have hstep : (Codec.unmarshal (Value.int n) cur : Except Error WebhookType)
              = Except.error Error.typeMismatch := by
            show (if -(2 : Int) ^ 63 ≤ n ∧ n < (2 : Int) ^ 63 then pure n
              else Except.error Error.typeMismatch) = Except.error Error.typeMismatch
            rw [if_neg hr]
          rw [hstep] at h
          exact absurd h (by simp [bind, Except.bind])
      | bool b => exact absurd h (by simp [bind, Except.bind, Codec.unmarshal])
      | number l => exact absurd h (by simp [bind, Except.bind, Codec.unmarshal])
      | str s => exact absurd h (by simp [bind, Except.bind, Codec.unmarshal])
      | arr l => exact absurd h (by simp [bind, Except.bind, Codec.unmarshal])
      | obj l => exact absurd h (by simp [bind, Except.bind, Codec.unmarshal])
    · have hk' : keyMatches "type" key = false := by simpa using hk
      simp only [hk', Bool.false_eq_true, if_false] at h
      have ht : typeMembers ((key, val) :: rest) = typeMembers rest := by
        simp [typeMembers, hk']
      rw [ht]
      exact ih cur h

/-- What the decoded `wType.Type` is, read off the input: the bytes are `null` and it is zero, or
they are an object and it is zero or the integer of the last non-null `type` member. -/
theorem decodeWType_ok (data : Data) (t : WebhookType) (h : decodeWType data = Except.ok t) :
    (data = some Value.null ∧ t = 0)
      ∨ ∃ members, data = some (Value.obj members)
          ∧ ((typeMembers members = [] ∧ t = 0)
            ∨ (typeMembers members).getLast? = some (Value.int t)) := by
  cases data with
  | none => exact absurd h (by simp [decodeWType])
  | some j =>
    cases j with
    | null =>
      left
      refine ⟨rfl, ?_⟩
      simp only [decodeWType, decodeStruct, pure, Except.pure] at h
      exact (Except.ok.inj h).symm
    | obj members =>
      right
      rw [decodeWType_obj] at h
      exact ⟨members, rfl, foldlM_type_last members 0 t h⟩
    | bool b => exact absurd h (by simp [decodeWType, decodeStruct])
    | int n => exact absurd h (by simp [decodeWType, decodeStruct])
    | number l => exact absurd h (by simp [decodeWType, decodeStruct])
    | str s => exact absurd h (by simp [decodeWType, decodeStruct])
    | arr l => exact absurd h (by simp [decodeWType, decodeStruct])

variable {UserT : Type} {IconT : Type} [Codec UserT] [Codec IconT]

/-- The method returns the error of the `wType` decoding and leaves the receiver alone. -/
theorem unmarshalJSON_of_decode_error (w : UnmarshalWebhook UserT IconT) (data : Data)
    (err : Error) (h : decodeWType data = Except.error err) :
    w.UnmarshalJSON data = (w, some err) := by
  simp only [UnmarshalWebhook.UnmarshalJSON, h]

/-- The method on a type outside the three constants: the `default` branch. -/
theorem unmarshalJSON_of_unknown_type (w : UnmarshalWebhook UserT IconT) (data : Data)
    (t : WebhookType) (h : decodeWType data = Except.ok t)
    (h1 : t ≠ 1) (h2 : t ≠ 2) (h3 : t ≠ 3) :
    w.UnmarshalJSON data = (w, some (Error.unknownWebhookType t)) := by
  have e1 : ¬ t = WebhookTypeIncoming := h1
  have e2 : ¬ t = WebhookTypeChannelFollower := h2
  have e3 : ¬ t = WebhookTypeApplication := h3
  simp only [UnmarshalWebhook.UnmarshalJSON, h, if_neg e1, if_neg e2, if_neg e3]

/-- The method on a successful call: the decoded type is one of the three constants and the
stored webhook is the struct of that type. -/
theorem unmarshalJSON_success (w : UnmarshalWebhook UserT IconT) (data : Data)
    (h : (w.UnmarshalJSON data).2 = none) :
    ∃ t, decodeWType data = Except.ok t
      ∧ ((t = 1 ∧ ∃ v, (w.UnmarshalJSON data).1.Webhook = some (Webhook.Incoming v))
        ∨ (t = 2 ∧ ∃ v, (w.UnmarshalJSON data).1.Webhook = some (Webhook.ChannelFollower v))
        ∨ (t = 3 ∧ ∃ v, (w.UnmarshalJSON data).1.Webhook = some (Webhook.Application v))) := by
  cases hd : decodeWType data with
  | error err =>
    rw [unmarshalJSON_of_decode_error w data err hd] at h
    exact absurd h (by simp)
  | ok t =>
    refine ⟨t, rfl, ?_⟩
    by_cases h1 : t = 1
    · left
      refine ⟨h1, ?_⟩
      have e1 : t = WebhookTypeIncoming := h1
      simp only [UnmarshalWebhook.UnmarshalJSON, hd, if_pos e1] at h ⊢
      split at h
      · exact absurd h (by simp)
      · rename_i hs
        simp only [hs]
        exact ⟨_, rfl⟩
    · by_cases h2 : t = 2
      · right; left
        refine ⟨h2, ?_⟩
        have e1 : ¬ t = WebhookTypeIncoming := h1
        have e2 : t = WebhookTypeChannelFollower := h2
        simp only [UnmarshalWebhook.UnmarshalJSON, hd, if_neg e1, if_pos e2] at h ⊢
        split at h
        · exact absurd h (by simp)
        · rename_i hs
          simp only [hs]
          exact ⟨_, rfl⟩
      · by_cases h3 : t = 3
        · right; right
          refine ⟨h3, ?_⟩
          have e1 : ¬ t = WebhookTypeIncoming := h1
          have e2 : ¬ t = WebhookTypeChannelFollower := h2
          have e3 : t = WebhookTypeApplication := h3
          simp only [UnmarshalWebhook.UnmarshalJSON, hd, if_neg e1, if_neg e2, if_pos e3] at h ⊢
          split at h
          · exact absurd h (by simp)
          · rename_i hs
            simp only [hs]
            exact ⟨_, rfl⟩
        · rw [unmarshalJSON_of_unknown_type w data t hd h1 h2 h3] at h
          exact absurd h (by simp)

/-- The method is atomic: when it returns an error the receiver is what it was. -/
theorem unmarshalJSON_error_keeps_receiver (w : UnmarshalWebhook UserT IconT) (data : Data)
    (h : (w.UnmarshalJSON data).2 ≠ none) : (w.UnmarshalJSON data).1 = w := by
  cases hd : decodeWType data with
  | error err => rw [unmarshalJSON_of_decode_error w data err hd]
  | ok t =>
    simp only [UnmarshalWebhook.UnmarshalJSON, hd] at h ⊢
    split
    · rfl
    · rename_i hs
      simp only [hs] at h
      exact absurd rfl h

/-- C6 as stated fails: on the object `{"type":1,"TYPE":3}` the call succeeds and stores an
ApplicationWebhook, whose `Type()` is 3, although the member `type` of the input is 1 (the
decoder binds keys to the field `type` up to letter case, and the later member wins). -/
theorem unmarshalWebhook_later_key_wins :
    exactTypeMember [("type", Value.int 1), ("TYPE", Value.int 3)] = some (Value.int 1)
      ∧ @UnmarshalWebhook.UnmarshalJSON String String _ _ { Webhook := none }
          (some (Value.obj [("type", Value.int 1), ("TYPE", Value.int 3)]))
        = ({ Webhook := some (Webhook.Application ApplicationWebhook.zero) }, none)
      ∧ (Webhook.Application ApplicationWebhook.zero : Webhook String String).Type_ = 3 :=
  ⟨rfl, rfl, rfl⟩

/-- C6, amended: the webhook type numbers are Incoming = 1, ChannelFollower = 2, Application = 3,
and for every input on which `UnmarshalWebhook.UnmarshalJSON` succeeds the input is an object,
the last of its members whose key equals `type` up to letter case and whose value is not null
holds an integer `t`, the stored Webhook is an IncomingWebhook, ChannelFollowerWebhook or
ApplicationWebhook as `t` is 1, 2 or 3, and its `Type()` equals `t`. -/
theorem unmarshalWebhook_selects_variant (w : UnmarshalWebhook UserT IconT) (data : Data)
    (h : (w.UnmarshalJSON data).2 = none) :
    WebhookTypeIncoming = 1 ∧ WebhookTypeChannelFollower = 2 ∧ WebhookTypeApplication = 3
      ∧ ∃ members t, data = some (Value.obj members)
          ∧ (typeMembers members).getLast? = some (Value.int t)
          ∧ ((t = WebhookTypeIncoming
                ∧ ∃ v, (w.UnmarshalJSON data).1.Webhook = some (Webhook.Incoming v))
            ∨ (t = WebhookTypeChannelFollower
                ∧ ∃ v, (w.UnmarshalJSON data).1.Webhook = some (Webhook.ChannelFollower v))
            ∨ (t = WebhookTypeApplication
                ∧ ∃ v, (w.UnmarshalJSON data).1.Webhook = some (Webhook.Application v)))
          ∧ (w.UnmarshalJSON data).1.Webhook.map Webhook.Type_ = some t := by
  refine ⟨rfl, rfl, rfl, ?_⟩
  obtain ⟨t, hd, hv⟩ := unmarshalJSON_success w data h
  have ht : t = 1 ∨ t = 2 ∨ t = 3 := by
    rcases hv with ⟨h1, _⟩ | ⟨h2, _⟩ | ⟨h3, _⟩
    · exact Or.inl h1
    · exact Or.inr (Or.inl h2)
    · exact Or.inr (Or.inr h3)
  have ht0 : t ≠ 0 := by
    rcases ht with h1 | h2 | h3 <;> rw [‹t = _›] <;> decide
  rcases decodeWType_ok data t hd with ⟨_, h0⟩ | ⟨members, hm, hl⟩
  · exact absurd h0 ht0
  · have hlast : (typeMembers members).getLast? = some (Value.int t) := by
      rcases hl with ⟨_, h0⟩ | hl
      · exact absurd h0 ht0
      · exact hl
    refine ⟨members, t, hm, hlast, hv, ?_⟩
    rcases hv with ⟨h1, v, hs⟩ | ⟨h2, v, hs⟩ | ⟨h3, v, hs⟩
    · rw [hs, h1]; rfl
    · rw [hs, h2]; rfl
    · rw [hs, h3]; rfl

/-- C6, amended, at a concrete input: `{"type":3,"id":"42","application_id":"7"}`. -/
theorem unmarshalWebhook_selects_variant_witness :
    (@UnmarshalWebhook.UnmarshalJSON String String _ _ { Webhook := none }
        (some (Value.obj [("type", Value.int 3), ("id", Value.str "42"),
          ("application_id", Value.str "7")]))).2 = none
      ∧ (WebhookTypeIncoming = 1 ∧ WebhookTypeChannelFollower = 2 ∧ WebhookTypeApplication = 3
        ∧ ∃ members t,
            some (Value.obj [("type", Value.int 3), ("id", Value.str "42"),
              ("application_id", Value.str "7")]) = some (Value.obj members)
          ∧ (typeMembers members).getLast? = some (Value.int t)
          ∧ ((t = WebhookTypeIncoming
                ∧ ∃ v, (@UnmarshalWebhook.UnmarshalJSON String String _ _ { Webhook := none }
                    (some (Value.obj [("type", Value.int 3), ("id", Value.str "42"),
                      ("application_id", Value.str "7")]))).1.Webhook
                  = some (Webhook.Incoming v))
            ∨ (t = WebhookTypeChannelFollower
                ∧ ∃ v, (@UnmarshalWebhook.UnmarshalJSON String String _ _ { Webhook := none }
                    (some (Value.obj [("type", Value.int 3), ("id", Value.str "42"),
                      ("application_id", Value.str "7")]))).1.Webhook
                  = some (Webhook.ChannelFollower v))
            ∨ (t = WebhookTypeApplication
                ∧ ∃ v, (@UnmarshalWebhook.UnmarshalJSON String String _ _ { Webhook := none }
                    (some (Value.obj [("type", Value.int 3), ("id", Value.str "42"),
                      ("application_id", Value.str "7")]))).1.Webhook
                  = some (Webhook.Application v)))
          ∧ (@UnmarshalWebhook.UnmarshalJSON String String _ _ { Webhook := none }
              (some (Value.obj [("type", Value.int 3), ("id", Value.str "42"),
                ("application_id", Value.str "7")]))).1.Webhook.map Webhook.Type_ = some t) :=
  ⟨rfl, unmarshalWebhook_selects_variant _ _ rfl⟩

/-- C7 as stated fails: the object `{"Type":3}` has no member `type`, yet the call returns a nil
error (the key `Type` is bound to the field `type`, and an ApplicationWebhook is stored). -/
theorem unmarshalWebhook_accepts_capitalised_key :
    exactTypeMember [("Type", Value.int 3)] = none
      ∧ @UnmarshalWebhook.UnmarshalJSON String String _ _ { Webhook := none }
          (some (Value.obj [("Type", Value.int 3)]))
        = ({ Webhook := some (Webhook.Application ApplicationWebhook.zero) }, none) :=
  ⟨rfl, rfl⟩

/-- C7, amended: for every JSON object in which no member with a key equal to `type` up to letter
case holds a non-null value, or in which the last such member holds an integer other than 1, 2
or 3, `UnmarshalWebhook.UnmarshalJSON` returns a non-nil error; and for every input on which it
returns an error the `Webhook` field of the receiver is left exactly as it was. -/
theorem unmarshalWebhook_fails_atomically (w : UnmarshalWebhook UserT IconT)
    (members : List (String × Value)) (data : Data) :
    ((typeMembers members = []
        ∨ ∃ n, (typeMembers members).getLast? = some (Value.int n) ∧ n ≠ 1 ∧ n ≠ 2 ∧ n ≠ 3)
      → (w.UnmarshalJSON (some (Value.obj members))).2 ≠ none)
    ∧ ((w.UnmarshalJSON data).2 ≠ none → (w.UnmarshalJSON data).1.Webhook = w.Webhook) := by
  refine ⟨fun hyp => ?_, fun herr => ?_⟩
  · cases hd : decodeWType (some (Value.obj members)) with
    | error err =>
      rw [unmarshalJSON_of_decode_error w _ err hd]
      simp
    | ok t =>
      have hbad : t ≠ 1 ∧ t ≠ 2 ∧ t ≠ 3 := by
        rcases decodeWType_ok _ t hd with ⟨hnull, _⟩ | ⟨ms, hm, hl⟩
        · exact absurd hnull (by simp)
        · have hms : members = ms := by
            injection hm with hm
            injection hm
          subst hms
          rcases hyp with hnil | ⟨n, hn, hn1, hn2, hn3⟩
          · rcases hl with ⟨_, h0⟩ | hl
            · subst h0
              exact ⟨by decide, by decide, by decide⟩
            · rw [hnil] at hl
              exact absurd hl (by simp)
          · rcases hl with ⟨hnil, _⟩ | hl
            · rw [hnil] at hn
              exact absurd hn (by simp)
            · rw [hn] at hl
              have htn : n = t := by
                injection hl with hl
                injection hl
              subst htn
              exact ⟨hn1, hn2, hn3⟩
      rw [unmarshalJSON_of_unknown_type w _ t hd hbad.1 hbad.2.1 hbad.2.2]
      simp
  · rw [unmarshalJSON_error_keeps_receiver w data herr]

/-- C7, amended, at concrete inputs: the object `{"kind":"x"}` without a type and the object
`{"type":4}` are refused, and the refused `{"type":3,"id":5}` (a number where the id string is
expected) leaves a receiver that held a webhook as it was. -/
theorem unmarshalWebhook_fails_atomically_witness :
    (typeMembers [("type", Value.int 4)] = []
        ∨ ∃ n, (typeMembers [("type", Value.int 4)]).getLast? = some (Value.int n)
            ∧ n ≠ 1 ∧ n ≠ 2 ∧ n ≠ 3)
      ∧ (@UnmarshalWebhook.UnmarshalJSON String String _ _
            { Webhook := some (Webhook.Application
                { id := "9", name := "old", avatar := none, ApplicationID := "8" }) }
            (some (Value.obj [("type", Value.int 4)]))).2 ≠ none
      ∧ (@UnmarshalWebhook.UnmarshalJSON String String _ _
            { Webhook := some (Webhook.Application
                { id := "9", name := "old", avatar := none, ApplicationID := "8" }) }
            (some (Value.obj [("type", Value.int 3), ("id", Value.int 5)]))).2 ≠ none
      ∧ (@UnmarshalWebhook.UnmarshalJSON String String _ _
            { Webhook := some (Webhook.Application
                { id := "9", name := "old", avatar := none, ApplicationID := "8" }) }
            (some (Value.obj [("type", Value.int 3), ("id", Value.int 5)]))).1.Webhook
          = some (Webhook.Application
              { id := "9", name := "old", avatar := none, ApplicationID := "8" }) :=
  have hyp : typeMembers [("type", Value.int 4)] = []
      ∨ ∃ n, (typeMembers [("type", Value.int 4)]).getLast? = some (Value.int n)
          ∧ n ≠ 1 ∧ n ≠ 2 ∧ n ≠ 3 :=
    Or.inr ⟨4, rfl, by decide, by decide, by decide⟩
  have herr : (@UnmarshalWebhook.UnmarshalJSON String String _ _
      { Webhook := some (Webhook.Application
          { id := "9", name := "old", avatar := none, ApplicationID := "8" }) }
      (some (Value.obj [("type", Value.int 3), ("id", Value.int 5)]))).2 ≠ none :=
    fun h => Option.noConfusion h
  ⟨hyp,
    (unmarshalWebhook_fails_atomically _ [("type", Value.int 4)]
      (some (Value.obj [("type", Value.int 3), ("id", Value.int 5)]))).1 hyp,
    herr,
    (unmarshalWebhook_fails_atomically _ [("type", Value.int 4)]
      (some (Value.obj [("type", Value.int 3), ("id", Value.int 5)]))).2 herr⟩

/-- Encoding an ApplicationWebhook emits `type` and `ApplicationID` only, and decoding that
output stores the zero ApplicationWebhook, whatever the webhook was. -/
theorem applicationWebhook_round_trip (a : ApplicationWebhook)
    (w : UnmarshalWebhook UserT IconT) :
    a.MarshalJSON
        = Except.ok (Value.obj [("type", Value.int 3), ("ApplicationID", Value.str a.ApplicationID)])
      ∧ w.UnmarshalJSON
          (some (Value.obj [("type", Value.int 3), ("ApplicationID", Value.str a.ApplicationID)]))
        = ({ Webhook := some (Webhook.Application ApplicationWebhook.zero) }, none) :=
  ⟨rfl, rfl⟩

/-- C8 fails on the code: for the ApplicationWebhook with id `1`, name `hook` and application id
`2`, `MarshalJSON` emits `{"type":3,"ApplicationID":"2"}` (the fields id, name and avatar are
unexported, the field ApplicationID has no tag), and decoding that output succeeds with an
ApplicationWebhook whose ID, Name and ApplicationID are empty; likewise an IncomingWebhook
comes back without its id and name. -/
theorem webhook_round_trip_loses_identity :
    (Webhook.Application { id := "1", name := "hook", avatar := none, ApplicationID := "2" }
        : Webhook String String).MarshalJSON
        = Except.ok (Value.obj [("type", Value.int 3), ("ApplicationID", Value.str "2")])
      ∧ @UnmarshalWebhook.UnmarshalJSON String String _ _ { Webhook := none }
          (some (Value.obj [("type", Value.int 3), ("ApplicationID", Value.str "2")]))
        = ({ Webhook := some (Webhook.Application
              { id := "", name := "", avatar := none, ApplicationID := "" }) }, none)
      ∧ (Webhook.Incoming
            { id := "1", name := "hook", avatar := none, ChannelID := "3", GuildID := "4",
              Token := "t", ApplicationID := none, User := "u" }
          : Webhook String String).MarshalJSON
        = Except.ok (Value.obj [("type", Value.int 1), ("channel_id", Value.str "3"),
            ("guild_id", Value.str "4"), ("token", Value.str "t"),
            ("application_id", Value.null), ("user", Value.str "u")])
      ∧ @UnmarshalWebhook.UnmarshalJSON String String _ _ { Webhook := none }
          (some (Value.obj [("type", Value.int 1), ("channel_id", Value.str "3"),
            ("guild_id", Value.str "4"), ("token", Value.str "t"),
            ("application_id", Value.null), ("user", Value.str "u")]))
        = ({ Webhook := some (Webhook.Incoming
              { id := "", name := "", avatar := none, ChannelID := "3", GuildID := "4",
                Token := "t", ApplicationID := none, User := "u" }) }, none) :=
  ⟨rfl, rfl, rfl, rfl⟩

end Webhooks
